import Mathlib

/-!
# whatsapp.go : session commands over a scripted transport

A shallow embedding of `scripts/whatsmeow/whatsapp.go`.  The program is a thin
command layer over external collaborators (the credential store, the protocol
client, the QR renderer, the console).  Every collaborator call is recorded, in
program order, in a trace; what each call answers is scripted by a `World`.
A command ends in one of three ways: it returns, it panics (Go `panic(err)`),
or it blocks for ever on a channel receive.  The message handler that
`setupClient` registers is called by the client library on its own goroutine;
it is embedded (`eventHandler`) but its output is not part of a command trace.
-/

namespace Whatsapp

/-! ## Collaborator data -/

/-- Participant address, the fields of `types.JID` the program can observe. -/
structure JID where
  User : String
  Server : String
  deriving DecidableEq

/-- One item of the pairing channel (`whatsmeow.QRChannelItem`): the source reads
`Event` and `Code` only. -/
structure QRChannelItem where
  Event : String
  Code : String
  deriving DecidableEq

/-- The pairing channel as the `range` loop sees it: the items that arrive, in
arrival order, and whether the channel is closed after the last of them.  A nil
channel is `⟨[], false⟩`: a receive on it never completes. -/
structure QRChan where
  items : List QRChannelItem
  closed : Bool
  deriving DecidableEq

/-- Go `error` values, by their message; `none` is `nil`. -/
abbrev GoError := Option String

/-- The answers of the external collaborators during one run of the process. -/
structure World where
  /-- result of `os.MkdirAll` -/
  mkdirErr : GoError
  /-- result of `sqlstore.New` -/
  sqlNewErr : GoError
  /-- result of `container.GetFirstDevice` -/
  firstDeviceErr : GoError
  /-- `client.Store.ID` of the loaded device: `none` is the nil pointer -/
  storeID : Option JID
  /-- result of the k-th call of `client.Connect` (counted from 0) -/
  connectErr : Nat → GoError
  /-- channel handed out by `client.GetQRChannel` (its error is discarded by the source) -/
  qrChan : QRChan
  /-- `types.ParseJID`: Go returns both a value and an error -/
  parseJID : String → JID × GoError
  /-- result of `client.SendMessage` for an address and a conversation text -/
  sendErr : JID → String → GoError
  /-- result of `client.Logout` -/
  logoutErr : GoError

/-- A collaborator call (with the answer it got, where the program looks at it). -/
inductive Call where
  | mkdirAll (dir : String) (perm : Nat)
  | sqlNew (dialect : String) (address : String)
  | getFirstDevice
  | newClient
  | addEventHandler
  | connect (err : GoError)
  | disconnect
  | getQRChannel
  | recv (evt : QRChannelItem)
  | render (code : String)
  | println (line : String)
  | sleep (nanos : Nat)
  | parseJID (text : String)
  | sendMessage (jid : JID) (conversation : String)
  | logout (err : GoError)
  deriving DecidableEq

/-- Program state threaded through a run: the trace so far and how many times
`Connect` has been called. -/
structure State where
  trace : List Call
  connects : Nat
  deriving DecidableEq

/-- How a computation ends. -/
inductive Result (α : Type) where
  | returned (a : α) (s : State)
  | panicked (err : String) (s : State)
  | blocked (s : State)
  deriving DecidableEq

/-- The state a computation ends in. -/
def Result.state {α : Type} : Result α → State
  | .returned _ s => s
  | .panicked _ s => s
  | .blocked s => s

/-- Whether a computation returned to its caller. -/
def Result.isReturned {α : Type} : Result α → Bool
  | .returned _ _ => true
  | _ => false

/-- Whether a computation panicked. -/
def Result.isPanicked {α : Type} : Result α → Bool
  | .panicked _ _ => true
  | _ => false

/-- Computations over the scripted collaborators. -/
def Prog (α : Type) : Type := State → Result α

/-- Sequencing: a panic or a block ends the run where it happens. -/
def Prog.bind {α β : Type} (m : Prog α) (f : α → Prog β) : Prog β := fun s =>
  match m s with
  | .returned a s1 => f a s1
  | .panicked e s1 => .panicked e s1
  | .blocked s1 => .blocked s1

instance : Monad Prog where
  pure a := fun s => .returned a s
  bind := Prog.bind

/-- Record one collaborator call. -/
def emit (c : Call) : Prog Unit := fun s =>
  .returned () { s with trace := s.trace ++ [c] }

/-- Go `panic(err)`. -/
def goPanic {α : Type} (err : String) : Prog α := fun s => .panicked err s

/-- A receive that never completes. -/
def blockForever {α : Type} : Prog α := fun s => .blocked s

/-- `fmt.Println` of already formatted operands: they are joined by single blanks. -/
def Println (operands : List String) : Prog Unit :=
  emit (.println (" ".intercalate operands))

/-- `time.Second` in nanoseconds. -/
def Second : Nat := 1000000000

/-! ## The client handle and its methods -/

/-- What the program reads of `*whatsmeow.Client`: the identity of its store. -/
structure Client where
  StoreID : Option JID
  deriving DecidableEq

/-- `client.Connect()`: the answer is the world's answer to this call number. -/
def Connect (w : World) : Prog GoError := fun s =>
  let err := w.connectErr s.connects
  .returned err { trace := s.trace ++ [.connect err], connects := s.connects + 1 }

/-- `client.Disconnect()`. -/
def Disconnect : Prog Unit := emit .disconnect

/-- `client.GetQRChannel(ctx)`; the second result is dropped by the caller. -/
def GetQRChannel (w : World) : Prog QRChan := do
  emit .getQRChannel
  pure w.qrChan

/-- `types.ParseJID(text)`. -/
def ParseJID (w : World) (text : String) : Prog (JID × GoError) := do
  emit (.parseJID text)
  pure (w.parseJID text)

/-- `client.SendMessage(ctx, jid, &waProto.Message{Conversation: msg})`. -/
def SendMessage (w : World) (jid : JID) (msg : String) : Prog GoError := do
  emit (.sendMessage jid msg)
  pure (w.sendErr jid msg)

/-- `client.Logout(ctx)`. -/
def Logout (w : World) : Prog GoError := do
  emit (.logout w.logoutErr)
  pure w.logoutErr

/-! ## The program -/

/-- An event delivered to the registered handler: the source tells a message
event (by its conversation text) from every other kind. -/
inductive Event where
  | message (conversation : String)
  | other
  deriving DecidableEq

/-- `eventHandler`: a message event is reported, every other event is ignored. -/
def eventHandler (evt : Event) : Prog Unit :=
  match evt with
  | .message conversation => Println ["Received a message!", conversation]
  | .other => pure ()

/-- `setupClient`: creates the session directory, opens the store, loads the
first device and builds the client; each failure panics. -/
def setupClient (w : World) : Prog Client := do
  let sessionDir := "wa_session"
  emit (.mkdirAll sessionDir 0o755)
  if let some err := w.mkdirErr then
    goPanic err
  else
  -- filepath.Join(sessionDir, "wa_session.db")
  let dbPath := "file:" ++ (sessionDir ++ "/" ++ "wa_session.db") ++
    "?_pragma=foreign_keys(1)&_pragma=journal_mode(WAL)&_pragma=synchronous(NORMAL)"
  emit (.sqlNew "sqlite" dbPath)
  if let some err := w.sqlNewErr then
    goPanic err
  else
  emit .getFirstDevice
  if let some err := w.firstDeviceErr then
    goPanic err
  else
  emit .newClient
  emit .addEventHandler
  pure { StoreID := w.storeID }

/-- The loop `for evt := range qrChan` of `login`: one iteration per received
item, `break` on a "success" item; when the items are used up the loop ends if
the channel is closed and waits for ever otherwise. -/
def rangeQR (closed : Bool) : List QRChannelItem → Prog Unit
  | [] => if closed then pure () else blockForever
  | evt :: rest => do
    emit (.recv evt)
    if evt.Event = "code" then
      Println ["Scan QR code di bawah:"]
      emit (.render evt.Code)
      rangeQR closed rest
    else if evt.Event = "success" then
      Println ["Login successful"]
    else
      Println ["Login event:", evt.Event]
      rangeQR closed rest

/-- `login`. -/
def login (w : World) : Prog Unit := do
  let client ← setupClient w
  if client.StoreID ≠ none then
    let err ← Connect w
    if err ≠ none then
      Println ["Session expired, need to login again"]
    else
      Println ["Already logged in"]
      Disconnect
      return
  let qrChan ← GetQRChannel w
  let err ← Connect w
  if let some e := err then
    goPanic e
  else
  rangeQR qrChan.closed qrChan.items
  emit (.sleep (30 * Second))
  Disconnect

/-- `sendMessage`. -/
def sendMessage (w : World) (phone msg : String) : Prog Unit := do
  let client ← setupClient w
  if client.StoreID = none then
    Println ["Not logged in"]
    return
  let err ← Connect w
  if let some e := err then
    goPanic e
  else
  let (jid, _) ← ParseJID w (phone ++ "@s.whatsapp.net")
  let err ← SendMessage w jid msg
  if let some e := err then
    Println ["Error sending message:", e]
  else
    Println ["Message sent!"]
  Disconnect

/-- `logout`. -/
def logout (w : World) : Prog Unit := do
  let _client ← setupClient w
  let err ← Connect w
  if let some e := err then
    goPanic e
  else
  let err ← Logout w
  if let some e := err then
    Println ["Error logging out:", e]
  else
    Println ["Logged out successfully"]
  Disconnect

/-- The parsed command line of `main`. -/
structure Flags where
  login : Bool
  send : Bool
  logout : Bool
  phone : String
  message : String
  deriving DecidableEq

/-- `main`, after `flag.Parse()`. -/
def main (w : World) (f : Flags) : Prog Unit := do
  if f.login then
    login w
  else if f.send then
    if f.phone = "" ∨ f.message = "" then
      Println ["Phone and message are required for send"]
      return
    sendMessage w f.phone f.message
  else if f.logout then
    logout w
  else
    Println ["Usage: go run whatsapp.go -login | -send -phone=<number> -message=<msg> | -logout"]

/-- The state a process starts in. -/
def State.init : State := { trace := [], connects := 0 }

/-- Run a command in a fresh process. -/
def run {α : Type} (p : Prog α) : Result α := p State.init

/-! ## Reading a trace -/

/-- Whether a connection is open after a trace, as a fake transport would count
it: a successful `Connect` opens the connection, `Disconnect` closes it. -/
def connOpen (tr : List Call) : Bool :=
  tr.foldl (fun o c =>
    match c with
    | .connect none => true
    | .disconnect => false
    | _ => o) false

/-- A `Connect` call, whatever it answered. -/
def isConnect : Call → Bool
  | .connect _ => true
  | _ => false

/-- A `SendMessage` call. -/
def isSend : Call → Bool
  | .sendMessage _ _ => true
  | _ => false

/-- A `Logout` (revoke) call. -/
def isRevoke : Call → Bool
  | .logout _ => true
  | _ => false

/-- The codes handed to the renderer, in call order. -/
def renders : List Call → List String
  | [] => []
  | .render code :: rest => code :: renders rest
  | _ :: rest => renders rest

/-- The channel items received, in call order. -/
def received : List Call → List QRChannelItem
  | [] => []
  | .recv evt :: rest => evt :: received rest
  | _ :: rest => received rest

/-- The calls of a `setupClient` that succeeds. -/
def setupCalls : List Call :=
  [.mkdirAll "wa_session" 0o755,
   .sqlNew "sqlite"
     "file:wa_session/wa_session.db?_pragma=foreign_keys(1)&_pragma=journal_mode(WAL)&_pragma=synchronous(NORMAL)",
   .getFirstDevice, .newClient, .addEventHandler]

/-- The store can be opened and its first device loaded. -/
def storeLoads (w : World) : Prop :=
  w.mkdirErr = none ∧ w.sqlNewErr = none ∧ w.firstDeviceErr = none

instance (w : World) : Decidable (storeLoads w) := by
  unfold storeLoads; infer_instance

/-- The items of a channel up to and including the first "success" item. -/
def uptoSuccess : List QRChannelItem → List QRChannelItem
  | [] => []
  | evt :: rest => if evt.Event = "success" then [evt] else evt :: uptoSuccess rest

/-- Every `Connect` call of the trace, whatever it answered, has a `Disconnect`
somewhere after it. -/
def connectsFollowed (tr : List Call) : Prop :=
  ∀ pre c post, tr = pre ++ c :: post → isConnect c = true → Call.disconnect ∈ post

/-- Every successful `Connect` of the trace has a `Disconnect` somewhere after it. -/
def opensClosed (tr : List Call) : Prop :=
  ∀ pre post, tr = pre ++ Call.connect none :: post → Call.disconnect ∈ post

/-- No `Connect` call comes after the last `Disconnect` of the trace. -/
def noConnectAfterLastDisconnect (tr : List Call) : Prop :=
  ∀ pre post, tr = pre ++ Call.disconnect :: post → Call.disconnect ∉ post →
    ∀ c ∈ post, isConnect c = false

/-! ## Closed forms used in the proofs -/

/-- The calls one run of the pairing loop makes on the given items. -/
def loopCalls : List QRChannelItem → List Call
  | [] => []
  | evt :: rest =>
    if evt.Event = "code" then
      .recv evt :: .println "Scan QR code di bawah:" :: .render evt.Code :: loopCalls rest
    else if evt.Event = "success" then
      [.recv evt, .println "Login successful"]
    else
      .recv evt :: .println ("Login event: " ++ evt.Event) :: loopCalls rest

/-- Some item of the channel is a "success" item. -/
def hasSuccess (items : List QRChannelItem) : Bool :=
  items.any (fun evt => evt.Event = "success")

/-- The line `sendMessage` prints for the answer of the transport. -/
def sendLine : GoError → String
  | none => "Message sent!"
  | some e => "Error sending message: " ++ e

/-- The line `logout` prints for the answer of the revoke request. -/
def logoutLine : GoError → String
  | none => "Logged out successfully"
  | some e => "Error logging out: " ++ e

/-- What the pairing part of `login` (from `GetQRChannel` on) does from a state. -/
def pairingRun (w : World) (s : State) : Result Unit :=
  match w.connectErr s.connects with
  | some e =>
    .panicked e { trace := s.trace ++ [.getQRChannel, .connect (some e)], connects := s.connects + 1 }
  | none =>
    if hasSuccess w.qrChan.items || w.qrChan.closed then
      .returned () { trace := s.trace ++ [.getQRChannel, .connect none] ++ loopCalls w.qrChan.items
                                ++ [.sleep (30 * Second), .disconnect],
                     connects := s.connects + 1 }
    else
      .blocked { trace := s.trace ++ [.getQRChannel, .connect none] ++ loopCalls w.qrChan.items,
                 connects := s.connects + 1 }

/-- A trace ends with `Disconnect`, or holds no `Connect` call at all. -/
def releasedShape (tr : List Call) : Prop :=
  (∃ init, tr = init ++ [.disconnect]) ∨ (∀ c ∈ tr, isConnect c = false)

/-! ## Sample worlds -/

/-- A sample address parser: the text before the first `@` must be a non-empty
run of digits. -/
def digitsParser (text : String) : JID × GoError :=
  let user := text.data.takeWhile (fun c => c ≠ '@')
  if user ≠ [] ∧ user.all Char.isDigit = true then
    (⟨String.mk user, "s.whatsapp.net"⟩, none)
  else
    (⟨"", ""⟩, some "failed to parse user")

/-- A fresh install: no identity, every call succeeds, and the pairing channel
delivers two codes and then the success item. -/
def worldEmpty : World :=
  { mkdirErr := none, sqlNewErr := none, firstDeviceErr := none,
    storeID := none,
    connectErr := fun _ => none,
    qrChan := ⟨[⟨"code", "code1"⟩, ⟨"code", "code2"⟩, ⟨"success", ""⟩], true⟩,
    parseJID := digitsParser,
    sendErr := fun _ _ => none,
    logoutErr := none }

/-- A paired install whose every call succeeds. -/
def worldPaired : World :=
  { worldEmpty with storeID := some ⟨"628111", "s.whatsapp.net"⟩ }

/-- A paired install whose transport cannot be reached. -/
def worldOffline : World :=
  { worldPaired with connectErr := fun _ => some "dial failed" }

/-- A fresh install whose transport cannot be reached. -/
def worldEmptyOffline : World :=
  { worldEmpty with connectErr := fun _ => some "dial failed" }

/-- A paired install whose revoke request is refused. -/
def worldRevokeFails : World :=
  { worldPaired with logoutErr := some "server refused" }

/-- A fresh install whose client library answers a revoke request with its
not-logged-in error. -/
def worldUnpaired : World :=
  { worldEmpty with logoutErr := some "not logged in" }

/-- A paired install whose address parser rejects every text. -/
def worldRejectingParser : World :=
  { worldPaired with parseJID := fun _ => (⟨"", ""⟩, some "failed to parse") }

/-- A fresh install whose pairing channel delivers a timeout item and is then
closed, as on a pairing deadline. -/
def worldTimeoutCloses : World :=
  { worldEmpty with qrChan := ⟨[⟨"timeout", ""⟩], true⟩ }

/-- A fresh install whose pairing channel delivers a timeout item and goes on. -/
def worldTimeout : World :=
  { worldEmpty with qrChan := ⟨[⟨"timeout", ""⟩, ⟨"code", "code2"⟩, ⟨"success", ""⟩], true⟩ }

/-! ## Sequencing lemmas -/

@[simp] theorem pure_apply {α : Type} (a : α) (s : State) :
    (pure a : Prog α) s = .returned a s := rfl

@[simp] theorem bind_apply {α β : Type} (m : Prog α) (f : α → Prog β) (s : State) :
    (m >>= f) s = Prog.bind m f s := rfl

@[simp] theorem emit_apply (c : Call) (s : State) :
    emit c s = .returned () { s with trace := s.trace ++ [c] } := rfl

theorem setupClient_ok (w : World) (h : storeLoads w) (s : State) :
    setupClient w s = .returned { StoreID := w.storeID } { s with trace := s.trace ++ setupCalls } := by
  obtain ⟨h1, h2, h3⟩ := h
  simp [setupClient, Prog.bind, h1, h2, h3, setupCalls]

@[simp] theorem Println_one (a : String) (s : State) :
    Println [a] s = .returned () { s with trace := s.trace ++ [.println a] } := rfl

@[simp] theorem Println_two (a b : String) (s : State) :
    Println [a, b] s = .returned () { s with trace := s.trace ++ [.println (a ++ " " ++ b)] } := rfl

theorem login_event_line (x : String) : "Login event:" ++ " " ++ x = "Login event: " ++ x := by
  rw [show "Login event:" ++ " " = "Login event: " by decide]

theorem rangeQR_run (closed : Bool) (items : List QRChannelItem) (s : State) :
    rangeQR closed items s =
      if hasSuccess items || closed then
        .returned () { s with trace := s.trace ++ loopCalls items }
      else
        .blocked { s with trace := s.trace ++ loopCalls items } := by
  induction items generalizing s with
  | nil => cases closed <;> simp [rangeQR, hasSuccess, loopCalls, blockForever]
  | cons evt rest ih =>
    by_cases hc : evt.Event = "code"
    · have hs : evt.Event ≠ "success" := by rw [hc]; decide
      simp [rangeQR, Prog.bind, hc, ih, loopCalls, hasSuccess]
    · by_cases hs : evt.Event = "success"
      · simp [rangeQR, Prog.bind, hc, hs, ih, loopCalls, hasSuccess]
      · simp [rangeQR, Prog.bind, hc, hs, ih, loopCalls, hasSuccess, login_event_line]

/-- A `setupClient` that fails panics after a beginning of `setupCalls`, and
whatever follows it in the command is not run. -/
theorem setupClient_fail (w : World) (h : ¬ storeLoads w) (s : State) :
    ∃ e tr, tr <+: setupCalls ∧ setupClient w s = .panicked e { s with trace := s.trace ++ tr } := by
  unfold storeLoads at h
  cases h1 : w.mkdirErr with
  | some e =>
    exact ⟨e, [.mkdirAll "wa_session" 0o755], by simp [setupCalls],
      by simp [setupClient, Prog.bind, h1, goPanic]⟩
  | none =>
    cases h2 : w.sqlNewErr with
    | some e =>
      exact ⟨e, setupCalls.take 2, List.take_prefix _ _,
        by simp [setupClient, Prog.bind, h1, h2, goPanic, setupCalls]⟩
    | none =>
      cases h3 : w.firstDeviceErr with
      | some e =>
        exact ⟨e, setupCalls.take 3, List.take_prefix _ _,
          by simp [setupClient, Prog.bind, h1, h2, h3, goPanic, setupCalls]⟩
      | none => exact absurd ⟨h1, h2, h3⟩ h

theorem login_run (w : World) (h : storeLoads w) :
    run (login w) =
      match w.storeID with
      | none => pairingRun w { trace := setupCalls, connects := 0 }
      | some _ =>
        match w.connectErr 0 with
        | none =>
          .returned () { trace := setupCalls ++ [.connect none, .println "Already logged in", .disconnect],
                         connects := 1 }
        | some e =>
          pairingRun w { trace := setupCalls ++
                           [.connect (some e), .println "Session expired, need to login again"],
                         connects := 1 } := by
  cases hid : w.storeID with
  | none =>
    cases hc : w.connectErr 0 with
    | some e =>
      simp [run, login, State.init, Prog.bind, setupClient_ok w h, hid, pairingRun, GetQRChannel,
        Connect, hc, goPanic]
    | none =>
      by_cases hl : hasSuccess w.qrChan.items = true ∨ w.qrChan.closed = true <;>
      simp [run, login, State.init, Prog.bind, setupClient_ok w h, hid, pairingRun, GetQRChannel,
        Connect, hc, rangeQR_run, Disconnect, hl]
  | some j =>
    cases hc : w.connectErr 0 with
    | none =>
      simp [run, login, State.init, Prog.bind, setupClient_ok w h, hid, Connect, hc, Disconnect]
    | some e =>
      cases hc2 : w.connectErr 1 with
      | some e2 =>
        simp [run, login, State.init, Prog.bind, setupClient_ok w h, hid, pairingRun, GetQRChannel,
          Connect, hc, hc2, goPanic]
      | none =>
        by_cases hl : hasSuccess w.qrChan.items = true ∨ w.qrChan.closed = true <;>
        simp [run, login, State.init, Prog.bind, setupClient_ok w h, hid, pairingRun, GetQRChannel,
          Connect, hc, hc2, rangeQR_run, Disconnect, hl]

theorem sendMessage_run (w : World) (phone msg : String) (h : storeLoads w) :
    run (sendMessage w phone msg) =
      match w.storeID with
      | none => .returned () { trace := setupCalls ++ [.println "Not logged in"], connects := 0 }
      | some _ =>
        match w.connectErr 0 with
        | some e => .panicked e { trace := setupCalls ++ [.connect (some e)], connects := 1 }
        | none =>
          .returned ()
            { trace := setupCalls ++
                [.connect none, .parseJID (phone ++ "@s.whatsapp.net"),
                 .sendMessage (w.parseJID (phone ++ "@s.whatsapp.net")).1 msg,
                 .println (sendLine (w.sendErr (w.parseJID (phone ++ "@s.whatsapp.net")).1 msg)),
                 .disconnect],
              connects := 1 } := by
  cases hid : w.storeID with
  | none => simp [run, sendMessage, State.init, Prog.bind, setupClient_ok w h, hid]
  | some j =>
    cases hc : w.connectErr 0 with
    | some e =>
      simp [run, sendMessage, State.init, Prog.bind, setupClient_ok w h, hid, Connect, hc, goPanic]
    | none =>
      cases hs : w.sendErr (w.parseJID (phone ++ "@s.whatsapp.net")).1 msg with
      | none =>
        simp [run, sendMessage, State.init, Prog.bind, setupClient_ok w h, hid, Connect, hc,
          ParseJID, SendMessage, Disconnect, hs, sendLine]
      | some e =>
        have hl : "Error sending message:" ++ " " ++ e = "Error sending message: " ++ e := by
          rw [show "Error sending message:" ++ " " = "Error sending message: " by decide]
        simp [run, sendMessage, State.init, Prog.bind, setupClient_ok w h, hid, Connect, hc,
          ParseJID, SendMessage, Disconnect, hs, sendLine, hl]

theorem logout_run (w : World) (h : storeLoads w) :
    run (logout w) =
      match w.connectErr 0 with
      | some e => .panicked e { trace := setupCalls ++ [.connect (some e)], connects := 1 }
      | none =>
        .returned ()
          { trace := setupCalls ++
              [.connect none, .logout w.logoutErr, .println (logoutLine w.logoutErr), .disconnect],
            connects := 1 } := by
  cases hc : w.connectErr 0 with
  | some e =>
    simp [run, logout, State.init, Prog.bind, setupClient_ok w h, Connect, hc, goPanic]
  | none =>
    cases hs : w.logoutErr with
    | none =>
      simp [run, logout, State.init, Prog.bind, setupClient_ok w h, Connect, hc, Logout,
        Disconnect, hs, logoutLine]
    | some e =>
      have hl : "Error logging out:" ++ " " ++ e = "Error logging out: " ++ e := by
        rw [show "Error logging out:" ++ " " = "Error logging out: " by decide]
      simp [run, logout, State.init, Prog.bind, setupClient_ok w h, Connect, hc, Logout,
        Disconnect, hs, logoutLine, hl]

/-- When the store cannot be loaded each command panics inside `setupClient`,
having made only calls of `setupCalls`. -/
theorem commands_setup_fail (w : World) (h : ¬ storeLoads w) (phone msg : String) :
    ∃ e tr, tr <+: setupCalls ∧
      run (login w) = .panicked e { trace := tr, connects := 0 } ∧
      run (sendMessage w phone msg) = .panicked e { trace := tr, connects := 0 } ∧
      run (logout w) = .panicked e { trace := tr, connects := 0 } := by
  obtain ⟨e, tr, hp, hrun⟩ := setupClient_fail w h State.init
  simp only [State.init, List.nil_append] at hrun
  refine ⟨e, tr, hp, ?_, ?_, ?_⟩ <;>
  simp [run, login, sendMessage, logout, Prog.bind, hrun, State.init]

/-! ## Traces that leave no connection open -/

theorem opensClosed_of_connectsFollowed {tr : List Call} (h : connectsFollowed tr) :
    opensClosed tr :=
  fun pre post e => h pre (.connect none) post e rfl

theorem mem_post_of_ends {init pre post : List Call} {c d : Call}
    (e : init ++ [d] = pre ++ c :: post) (hne : c ≠ d) : d ∈ post := by
  have hr := congrArg List.reverse e
  simp only [List.reverse_append, List.reverse_cons, List.reverse_nil, List.nil_append,
    List.singleton_append, List.append_assoc] at hr
  cases hp : post.reverse with
  | nil =>
    rw [hp] at hr
    simp only [List.nil_append, List.singleton_append, List.cons.injEq] at hr
    exact absurd hr.1.symm hne
  | cons x xs =>
    rw [hp] at hr
    simp only [List.cons_append, List.cons.injEq] at hr
    have : d ∈ post.reverse := by rw [hp, hr.1]; exact List.mem_cons_self _ _
    exact List.mem_reverse.mp this

theorem connOpen_ends (init : List Call) : connOpen (init ++ [.disconnect]) = false := by
  simp [connOpen, List.foldl_append]

theorem connectsFollowed_ends (init : List Call) : connectsFollowed (init ++ [.disconnect]) := by
  intro pre c post e hc
  refine mem_post_of_ends e ?_
  intro h
  rw [h] at hc
  simp [isConnect] at hc

theorem noConnectAfter_ends (init : List Call) :
    noConnectAfterLastDisconnect (init ++ [.disconnect]) := by
  intro pre post e hn c hc
  cases hp : post.reverse with
  | nil =>
    have : post = [] := by simpa using hp
    rw [this] at hc
    simp at hc
  | cons x xs =>
    exfalso
    have hr := congrArg List.reverse e
    simp only [List.reverse_append, List.reverse_cons, List.reverse_nil, List.nil_append,
      List.singleton_append, List.append_assoc, hp, List.cons_append, List.cons.injEq] at hr
    apply hn
    have : Call.disconnect ∈ post.reverse := by rw [hp, ← hr.1]; exact List.mem_cons_self _ _
    exact List.mem_reverse.mp this

theorem connOpen_foldl_noConnect (tr : List Call) (h : ∀ c ∈ tr, isConnect c = false) (b : Bool) :
    tr.foldl (fun o c =>
      match c with
      | .connect none => true
      | .disconnect => false
      | _ => o) b = true → b = true := by
  induction tr generalizing b with
  | nil => simp
  | cons c rest ih =>
    intro hf
    have hc := h c (List.mem_cons_self _ _)
    have hrest : ∀ c ∈ rest, isConnect c = false := fun x hx => h x (List.mem_cons_of_mem _ hx)
    rw [List.foldl_cons] at hf
    have := ih hrest _ hf
    cases c <;> simp_all [isConnect]

theorem connOpen_noConnect (tr : List Call) (h : ∀ c ∈ tr, isConnect c = false) :
    connOpen tr = false := by
  cases hb : connOpen tr with
  | false => rfl
  | true => exact absurd (connOpen_foldl_noConnect tr h false hb) (by decide)

theorem connectsFollowed_noConnect (tr : List Call) (h : ∀ c ∈ tr, isConnect c = false) :
    connectsFollowed tr := by
  intro pre c post e hc
  have := h c (by rw [e]; simp)
  rw [this] at hc
  exact absurd hc (by decide)

theorem setupCalls_plain :
    ∀ c ∈ setupCalls, isConnect c = false ∧ isSend c = false ∧ isRevoke c = false := by
  intro c hc
  simp [setupCalls] at hc
  rcases hc with h | h | h | h | h <;> subst h <;> exact ⟨rfl, rfl, rfl⟩

theorem setupCalls_noConnect : ∀ c ∈ setupCalls, isConnect c = false :=
  fun c hc => (setupCalls_plain c hc).1

theorem pairingRun_returned (w : World) (s0 s : State)
    (h : pairingRun w s0 = .returned () s) : ∃ init, s.trace = init ++ [.disconnect] := by
  unfold pairingRun at h
  split at h
  · exact absurd h (by simp)
  · split at h
    · simp only [Result.returned.injEq, true_and] at h
      subst h
      exact ⟨s0.trace ++ [.getQRChannel, .connect none] ++ loopCalls w.qrChan.items
        ++ [.sleep (30 * Second)], by simp⟩
    · exact absurd h (by simp)

theorem login_returned (w : World) (s : State) (h : run (login w) = .returned () s) :
    releasedShape s.trace := by
  by_cases hl : storeLoads w
  · rw [login_run w hl] at h
    split at h
    · exact Or.inl (pairingRun_returned w _ s h)
    · split at h
      · simp only [Result.returned.injEq, true_and] at h
        subst h
        exact Or.inl ⟨setupCalls ++ [.connect none, .println "Already logged in"], by simp⟩
      · exact Or.inl (pairingRun_returned w _ s h)
  · obtain ⟨e, tr, _, h1, _, _⟩ := commands_setup_fail w hl "" ""
    rw [h1] at h
    exact absurd h (by simp)

theorem sendMessage_returned (w : World) (phone msg : String) (s : State)
    (h : run (sendMessage w phone msg) = .returned () s) : releasedShape s.trace := by
  by_cases hl : storeLoads w
  · rw [sendMessage_run w phone msg hl] at h
    split at h
    · simp only [Result.returned.injEq, true_and] at h
      subst h
      refine Or.inr ?_
      intro c hc
      simp only [List.mem_append, List.mem_singleton] at hc
      rcases hc with hc | hc
      · exact setupCalls_noConnect c hc
      · subst hc; rfl
    · split at h
      · exact absurd h (by simp)
      · simp only [Result.returned.injEq, true_and] at h
        subst h
        exact Or.inl ⟨setupCalls ++ [.connect none, .parseJID (phone ++ "@s.whatsapp.net"),
          .sendMessage (w.parseJID (phone ++ "@s.whatsapp.net")).1 msg,
          .println (sendLine (w.sendErr (w.parseJID (phone ++ "@s.whatsapp.net")).1 msg))],
          by simp⟩
  · obtain ⟨e, tr, _, _, h2, _⟩ := commands_setup_fail w hl phone msg
    rw [h2] at h
    exact absurd h (by simp)

theorem logout_returned (w : World) (s : State) (h : run (logout w) = .returned () s) :
    releasedShape s.trace := by
  by_cases hl : storeLoads w
  · rw [logout_run w hl] at h
    split at h
    · exact absurd h (by simp)
    · simp only [Result.returned.injEq, true_and] at h
      subst h
      exact Or.inl ⟨setupCalls ++ [.connect none, .logout w.logoutErr,
        .println (logoutLine w.logoutErr)], by simp⟩
  · obtain ⟨e, tr, _, _, _, h3⟩ := commands_setup_fail w hl "" ""
    rw [h3] at h
    exact absurd h (by simp)

theorem released_closed {tr : List Call} (h : releasedShape tr) :
    connOpen tr = false ∧ connectsFollowed tr ∧ noConnectAfterLastDisconnect tr := by
  rcases h with ⟨init, rfl⟩ | h
  · exact ⟨connOpen_ends init, connectsFollowed_ends init, noConnectAfter_ends init⟩
  · exact ⟨connOpen_noConnect tr h, connectsFollowed_noConnect tr h,
      fun pre post e _ c hc => h c (by rw [e]; simp [hc])⟩

/-! ## What the pairing loop emits -/

theorem renders_append (a b : List Call) : renders (a ++ b) = renders a ++ renders b := by
  induction a with
  | nil => rfl
  | cons c rest ih => cases c <;> simp [renders, ih]

theorem received_append (a b : List Call) : received (a ++ b) = received a ++ received b := by
  induction a with
  | nil => rfl
  | cons c rest ih => cases c <;> simp [received, ih]

theorem renders_setupCalls : renders setupCalls = [] := rfl

theorem received_setupCalls : received setupCalls = [] := rfl

theorem renders_loopCalls (items : List QRChannelItem) :
    renders (loopCalls items) =
      ((items.takeWhile (fun e => e.Event ≠ "success")).filter
        (fun e => e.Event = "code")).map (fun e => e.Code) := by
  induction items with
  | nil => rfl
  | cons evt rest ih =>
    by_cases hc : evt.Event = "code"
    · have hs : evt.Event ≠ "success" := by rw [hc]; decide
      simp [loopCalls, renders, hc, ih, List.takeWhile_cons]
    · by_cases hs : evt.Event = "success"
      · simp [loopCalls, renders, hc, hs, List.takeWhile_cons]
      · simp [loopCalls, renders, hc, hs, ih, List.takeWhile_cons]

theorem received_loopCalls (items : List QRChannelItem) :
    received (loopCalls items) = uptoSuccess items := by
  induction items with
  | nil => rfl
  | cons evt rest ih =>
    by_cases hc : evt.Event = "code"
    · have hs : evt.Event ≠ "success" := by rw [hc]; decide
      simp [loopCalls, received, uptoSuccess, hc, ih]
    · by_cases hs : evt.Event = "success"
      · simp [loopCalls, received, uptoSuccess, hc, hs]
      · simp [loopCalls, received, uptoSuccess, hc, hs, ih]

theorem event_line_ne_success (x : String) : "Login event: " ++ x ≠ "Login successful" := by
  intro h
  have := congrArg String.data h
  simp [String.data_append] at this

/-- With a "success" item the loop's calls end with the success report, which is
the only such report, and hold no sleep and no `Disconnect`. -/
theorem loopCalls_success (items : List QRChannelItem) (h : hasSuccess items = true) :
    ∃ pre, loopCalls items = pre ++ [.println "Login successful"] ∧
      Call.println "Login successful" ∉ pre ∧ (∀ n, Call.sleep n ∉ pre) ∧
      Call.disconnect ∉ pre := by
  induction items with
  | nil => simp [hasSuccess] at h
  | cons evt rest ih =>
    by_cases hc : evt.Event = "code"
    · have hs : evt.Event ≠ "success" := by rw [hc]; decide
      have hr : hasSuccess rest = true := by simpa [hasSuccess, hs] using h
      obtain ⟨pre, e, h1, h2, h3⟩ := ih hr
      refine ⟨.recv evt :: .println "Scan QR code di bawah:" :: .render evt.Code :: pre, ?_, ?_, ?_, ?_⟩
      · simp [loopCalls, hc, e]
      · simp [h1]
      · intro n; simp [h2 n]
      · simp [h3]
    · by_cases hs : evt.Event = "success"
      · exact ⟨[.recv evt], by simp [loopCalls, hc, hs], by simp, by simp, by simp⟩
      · have hr : hasSuccess rest = true := by simpa [hasSuccess, hs] using h
        obtain ⟨pre, e, h1, h2, h3⟩ := ih hr
        refine ⟨.recv evt :: .println ("Login event: " ++ evt.Event) :: pre, ?_, ?_, ?_, ?_⟩
        · simp [loopCalls, hc, hs, e]
        · simp [h1, (event_line_ne_success evt.Event).symm]
        · intro n; simp [h2 n]
        · simp [h3]

theorem loopCalls_no_success (items : List QRChannelItem) (h : hasSuccess items = false) :
    Call.println "Login successful" ∉ loopCalls items := by
  induction items with
  | nil => simp [loopCalls]
  | cons evt rest ih =>
    have hs : evt.Event ≠ "success" := by
      intro hs; simp [hasSuccess, hs] at h
    have hr : hasSuccess rest = false := by
      cases hh : hasSuccess rest with
      | false => rfl
      | true =>
        simp only [hasSuccess, List.any_cons] at h hh
        simp [hh] at h
    by_cases hc : evt.Event = "code"
    · simp [loopCalls, hc, ih hr]
    · simp [loopCalls, hc, hs, ih hr, (event_line_ne_success evt.Event).symm]

theorem loopCalls_other_line (items : List QRChannelItem) (e : QRChannelItem)
    (he : e ∈ uptoSuccess items) (hc : e.Event ≠ "code") (hs : e.Event ≠ "success") :
    Call.println ("Login event: " ++ e.Event) ∈ loopCalls items := by
  induction items with
  | nil => simp [uptoSuccess] at he
  | cons evt rest ih =>
    by_cases hc1 : evt.Event = "code"
    · have hs1 : evt.Event ≠ "success" := by rw [hc1]; decide
      simp only [uptoSuccess, hs1, if_false, List.mem_cons] at he
      rcases he with he | he
      · subst he; exact absurd hc1 hc
      · simp [loopCalls, hc1, ih he]
    · by_cases hs1 : evt.Event = "success"
      · simp only [uptoSuccess, hs1, if_true, List.mem_singleton] at he
        subst he; exact absurd hs1 hs
      · simp only [uptoSuccess, hs1, if_false, List.mem_cons] at he
        rcases he with he | he
        · subst he; simp [loopCalls, hc1, hs1]
        · simp [loopCalls, hc1, hs1, ih he]

/-- Every line the loop prints is the scan prompt, the success report, or the
report of an item that is neither "code" nor "success". -/
theorem loopCalls_lines (items : List QRChannelItem) (line : String)
    (h : Call.println line ∈ loopCalls items) :
    line = "Scan QR code di bawah:" ∨ line = "Login successful" ∨
      ∃ e ∈ uptoSuccess items, e.Event ≠ "code" ∧ e.Event ≠ "success" ∧
        line = "Login event: " ++ e.Event := by
  induction items with
  | nil => simp [loopCalls] at h
  | cons evt rest ih =>
    have lift : (line = "Scan QR code di bawah:" ∨ line = "Login successful" ∨
        ∃ e ∈ uptoSuccess rest, e.Event ≠ "code" ∧ e.Event ≠ "success" ∧
          line = "Login event: " ++ e.Event) → evt.Event ≠ "success" →
        (line = "Scan QR code di bawah:" ∨ line = "Login successful" ∨
        ∃ e ∈ uptoSuccess (evt :: rest), e.Event ≠ "code" ∧ e.Event ≠ "success" ∧
          line = "Login event: " ++ e.Event) := by
      intro h0 hs
      rcases h0 with h1 | h1 | ⟨e, he, h1⟩
      · exact Or.inl h1
      · exact Or.inr (Or.inl h1)
      · exact Or.inr (Or.inr ⟨e, by simp [uptoSuccess, hs, he], h1⟩)
    by_cases hc : evt.Event = "code"
    · have hs : evt.Event ≠ "success" := by rw [hc]; decide
      simp only [loopCalls, hc, if_true, List.mem_cons] at h
      rcases h with h | h | h | h
      · exact absurd h (by simp)
      · exact Or.inl (by simpa using h)
      · exact absurd h (by simp)
      · exact lift (ih h) hs
    · by_cases hs : evt.Event = "success"
      · have hl : loopCalls (evt :: rest) = [.recv evt, .println "Login successful"] := by
          simp [loopCalls, hc, hs]
        rw [hl] at h
        simp only [List.mem_cons, List.mem_singleton] at h
        rcases h with h | h | h
        · exact absurd h (by simp)
        · exact Or.inr (Or.inl (by simpa using h))
        · simp at h
      · simp only [loopCalls, hc, hs, if_false, List.mem_cons] at h
        rcases h with h | h | h
        · exact absurd h (by simp)
        · exact Or.inr (Or.inr ⟨evt, by simp [uptoSuccess, hs], hc, hs, by simpa using h⟩)
        · exact lift (ih h) hs

/-! ## The claims -/

/-- C1: whenever `login`, `sendMessage` or `logout` returns normally, whatever the
collaborators answered, no connection is open: the open/close count of the trace
is closed, every successful `Connect` is followed by a `Disconnect`, and no
`Connect` comes after the last `Disconnect`. -/
theorem no_connection_open_after_return (w : World) (phone msg : String) (s : State)
    (h : run (login w) = .returned () s ∨ run (sendMessage w phone msg) = .returned () s ∨
      run (logout w) = .returned () s) :
    connOpen s.trace = false ∧ opensClosed s.trace ∧ noConnectAfterLastDisconnect s.trace := by
  have hs : releasedShape s.trace := by
    rcases h with h | h | h
    · exact login_returned w s h
    · exact sendMessage_returned w phone msg s h
    · exact logout_returned w s h
  obtain ⟨h1, h2, h3⟩ := released_closed hs
  exact ⟨h1, opensClosed_of_connectsFollowed h2, h3⟩

/-- Witness of C1: each of the three commands returns in a sample world (`login`
through the pairing loop) and leaves no connection open. -/
theorem no_connection_open_after_return_witness :
    (∃ s, run (login worldEmpty) = .returned () s ∧
      connOpen s.trace = false ∧ opensClosed s.trace ∧ noConnectAfterLastDisconnect s.trace) ∧
    (∃ s, run (sendMessage worldPaired "628222" "hi") = .returned () s ∧
      connOpen s.trace = false ∧ opensClosed s.trace ∧ noConnectAfterLastDisconnect s.trace) ∧
    (∃ s, run (logout worldRevokeFails) = .returned () s ∧
      connOpen s.trace = false ∧ opensClosed s.trace ∧ noConnectAfterLastDisconnect s.trace) :=
  ⟨⟨_, rfl, no_connection_open_after_return worldEmpty "" "" _ (Or.inl rfl)⟩,
   ⟨_, rfl, no_connection_open_after_return worldPaired "628222" "hi" _ (Or.inr (Or.inl rfl))⟩,
   ⟨_, rfl, no_connection_open_after_return worldRevokeFails "" "" _ (Or.inr (Or.inr rfl))⟩⟩

/-- C2: `sendMessage` on a store without device identity makes no `Connect` call
and no `SendMessage` call; once the store is loaded it only prints "Not logged in"
and returns. -/
theorem sendMessage_unpaired_no_connect (w : World) (phone msg : String)
    (h : w.storeID = none) :
    (∀ c ∈ (run (sendMessage w phone msg)).state.trace, isConnect c = false ∧ isSend c = false) ∧
    (storeLoads w →
      run (sendMessage w phone msg) =
        .returned () { trace := setupCalls ++ [.println "Not logged in"], connects := 0 }) := by
  have hrun : storeLoads w → run (sendMessage w phone msg) =
      .returned () { trace := setupCalls ++ [.println "Not logged in"], connects := 0 } := by
    intro hl
    rw [sendMessage_run w phone msg hl, h]
  refine ⟨?_, hrun⟩
  by_cases hl : storeLoads w
  · rw [hrun hl]
    intro c hc
    simp only [Result.state, List.mem_append, List.mem_singleton] at hc
    rcases hc with hc | hc
    · exact ⟨(setupCalls_plain c hc).1, (setupCalls_plain c hc).2.1⟩
    · subst hc; exact ⟨rfl, rfl⟩
  · obtain ⟨e, tr, hp, _, h2, _⟩ := commands_setup_fail w hl phone msg
    rw [h2]
    intro c hc
    have := setupCalls_plain c (hp.subset hc)
    exact ⟨this.1, this.2.1⟩

/-- Witness of C2: the fresh sample world. -/
theorem sendMessage_unpaired_no_connect_witness :
    worldEmpty.storeID = none ∧
    (∀ c ∈ (run (sendMessage worldEmpty "628222" "hi")).state.trace,
      isConnect c = false ∧ isSend c = false) ∧
    run (sendMessage worldEmpty "628222" "hi") =
      .returned () { trace := setupCalls ++ [.println "Not logged in"], connects := 0 } :=
  ⟨rfl, (sendMessage_unpaired_no_connect worldEmpty "628222" "hi" rfl).1,
    (sendMessage_unpaired_no_connect worldEmpty "628222" "hi" rfl).2 ⟨rfl, rfl, rfl⟩⟩

/-- C5: `login` on a store that holds a device identity and whose first `Connect`
succeeds makes exactly the calls connect, report "Already logged in", disconnect:
it never asks for or reads the pairing channel, renders no code, and does not
sleep. -/
theorem login_paired_never_pairs (w : World) (hl : storeLoads w)
    (hid : w.storeID ≠ none) (hc : w.connectErr 0 = none) :
    run (login w) =
      .returned () { trace := setupCalls ++ [.connect none, .println "Already logged in", .disconnect],
                     connects := 1 } ∧
    Call.getQRChannel ∉ (run (login w)).state.trace ∧
    received (run (login w)).state.trace = [] ∧
    renders (run (login w)).state.trace = [] ∧
    (run (login w)).state.trace.countP isConnect = 1 ∧
    (run (login w)).state.trace.count Call.disconnect = 1 ∧
    ∀ n, Call.sleep n ∉ (run (login w)).state.trace := by
  have hrun : run (login w) =
      .returned () { trace := setupCalls ++ [.connect none, .println "Already logged in", .disconnect],
                     connects := 1 } := by
    rw [login_run w hl]
    cases hs : w.storeID with
    | none => exact absurd hs hid
    | some j => simp [hc]
  rw [hrun]
  refine ⟨rfl, by decide, rfl, rfl, rfl, by decide, ?_⟩
  intro n
  simp [Result.state, setupCalls]

/-- Witness of C5: the paired sample world. -/
theorem login_paired_never_pairs_witness :
    storeLoads worldPaired ∧ worldPaired.storeID ≠ none ∧ worldPaired.connectErr 0 = none ∧
    run (login worldPaired) =
      .returned () { trace := setupCalls ++ [.connect none, .println "Already logged in", .disconnect],
                     connects := 1 } :=
  ⟨⟨rfl, rfl, rfl⟩, by decide, rfl,
    (login_paired_never_pairs worldPaired ⟨rfl, rfl, rfl⟩ (by decide) rfl).1⟩

theorem login_pairing_run (w : World) (hl : storeLoads w) (hid : w.storeID = none)
    (hc : w.connectErr 0 = none) :
    run (login w) =
      if hasSuccess w.qrChan.items || w.qrChan.closed then
        .returned () { trace := setupCalls ++ [.getQRChannel, .connect none] ++
                                  loopCalls w.qrChan.items ++ [.sleep (30 * Second), .disconnect],
                       connects := 1 }
      else
        .blocked { trace := setupCalls ++ [.getQRChannel, .connect none] ++ loopCalls w.qrChan.items,
                   connects := 1 } := by
  rw [login_run w hl, hid]
  simp [pairingRun, hc]

theorem login_pairing_trace (w : World) (hl : storeLoads w) (hid : w.storeID = none)
    (hc : w.connectErr 0 = none) :
    ∃ tail, (tail = [] ∨ tail = [Call.sleep (30 * Second), Call.disconnect]) ∧
      (run (login w)).state.trace =
        setupCalls ++ [.getQRChannel, .connect none] ++ loopCalls w.qrChan.items ++ tail := by
  rw [login_pairing_run w hl hid hc]
  split
  · exact ⟨_, Or.inr rfl, rfl⟩
  · exact ⟨[], Or.inl rfl, by simp [Result.state]⟩

/-- C6: in `login` on an empty store whose `Connect` succeeds, the renderer gets
exactly the codes of the "code" items that come before the first "success" item,
in arrival order; when a "success" item is present `login` returns, and its trace
ends with the report "Login successful", the 30 second sleep and the `Disconnect`,
in this order and each occurring once. -/
theorem login_renders_each_code_until_success (w : World) (hl : storeLoads w)
    (hid : w.storeID = none) (hc : w.connectErr 0 = none) :
    renders (run (login w)).state.trace =
      ((w.qrChan.items.takeWhile (fun e => e.Event ≠ "success")).filter
        (fun e => e.Event = "code")).map (fun e => e.Code) ∧
    (hasSuccess w.qrChan.items = true →
      ∃ pre, run (login w) =
          .returned () { trace := pre ++ [.println "Login successful", .sleep (30 * Second),
                                          .disconnect],
                         connects := 1 } ∧
        Call.println "Login successful" ∉ pre ∧ (∀ n, Call.sleep n ∉ pre) ∧
        Call.disconnect ∉ pre) := by
  constructor
  · obtain ⟨tail, ht, htr⟩ := login_pairing_trace w hl hid hc
    rw [htr]
    rcases ht with rfl | rfl <;>
    simp [renders_append, renders_setupCalls, renders_loopCalls, renders]
  · intro hs
    obtain ⟨pre, e, h1, h2, h3⟩ := loopCalls_success w.qrChan.items hs
    refine ⟨setupCalls ++ [.getQRChannel, .connect none] ++ pre, ?_, ?_, ?_, ?_⟩
    · rw [login_pairing_run w hl hid hc, e]
      simp [hs]
    · simp [h1, setupCalls]
    · intro n; simp [h2 n, setupCalls]
    · simp [h3, setupCalls]

/-- Witness of C6: the stream code1, code2, success gives exactly two renders, and
the run ends with the success report, the sleep and the `Disconnect`. -/
theorem login_renders_each_code_until_success_witness :
    storeLoads worldEmpty ∧ worldEmpty.storeID = none ∧ worldEmpty.connectErr 0 = none ∧
    worldEmpty.qrChan.items = [⟨"code", "code1"⟩, ⟨"code", "code2"⟩, ⟨"success", ""⟩] ∧
    renders (run (login worldEmpty)).state.trace = ["code1", "code2"] ∧
    (∃ pre, run (login worldEmpty) =
        .returned () { trace := pre ++ [.println "Login successful", .sleep (30 * Second),
                                        .disconnect],
                       connects := 1 } ∧
      Call.println "Login successful" ∉ pre ∧ (∀ n, Call.sleep n ∉ pre) ∧
      Call.disconnect ∉ pre) :=
  ⟨⟨rfl, rfl, rfl⟩, rfl, rfl, rfl,
    (login_renders_each_code_until_success worldEmpty ⟨rfl, rfl, rfl⟩ rfl rfl).1,
    (login_renders_each_code_until_success worldEmpty ⟨rfl, rfl, rfl⟩ rfl rfl).2 rfl⟩

/-- Counterexample to C7 as stated: after a "timeout" item the loop goes on; the
code that follows is received and rendered and `login` ends with the report
"Login successful". -/
theorem login_timeout_does_not_end_loop :
    worldTimeout.qrChan.items = [⟨"timeout", ""⟩, ⟨"code", "code2"⟩, ⟨"success", ""⟩] ∧
    received (run (login worldTimeout)).state.trace =
      [⟨"timeout", ""⟩, ⟨"code", "code2"⟩, ⟨"success", ""⟩] ∧
    renders (run (login worldTimeout)).state.trace = ["code2"] ∧
    Call.println "Login successful" ∈ (run (login worldTimeout)).state.trace :=
  ⟨rfl, rfl, rfl, by decide⟩

/-- C7, amended: in the pairing loop of `login` an item that is neither "code" nor
"success" does not end the loop: it is reported as "Login event: " followed by
its name and the loop goes on.  The run of `login` (empty store, `Connect`
succeeding) is exactly: setup, `GetQRChannel`, `Connect`, the calls of the loop,
and then, when a "success" item is present or the channel is closed after its
items, the 30 second sleep, `Disconnect` and the return; with no "success" item
on a channel that is never closed the run waits for ever.  The items received
are those up to and including the first "success" item (all of them when there
is none), "Login successful" is printed exactly when a "success" item is
present, and every printed line is the scan prompt, the success report or a
"Login event: " line: there is no pairing-failed outcome. -/
theorem login_other_event_is_reported_and_loop_goes_on (w : World) (hl : storeLoads w)
    (hid : w.storeID = none) (hc : w.connectErr 0 = none) :
    run (login w) =
      (if hasSuccess w.qrChan.items || w.qrChan.closed then
        .returned () { trace := setupCalls ++ [.getQRChannel, .connect none] ++
                                  loopCalls w.qrChan.items ++ [.sleep (30 * Second), .disconnect],
                       connects := 1 }
      else
        .blocked { trace := setupCalls ++ [.getQRChannel, .connect none] ++
                              loopCalls w.qrChan.items,
                   connects := 1 }) ∧
    received (run (login w)).state.trace = uptoSuccess w.qrChan.items ∧
    (∀ e ∈ uptoSuccess w.qrChan.items, e.Event ≠ "code" → e.Event ≠ "success" →
      Call.println ("Login event: " ++ e.Event) ∈ (run (login w)).state.trace) ∧
    (Call.println "Login successful" ∈ (run (login w)).state.trace ↔
      hasSuccess w.qrChan.items = true) ∧
    (∀ line, Call.println line ∈ (run (login w)).state.trace →
      line = "Scan QR code di bawah:" ∨ line = "Login successful" ∨
        ∃ e ∈ uptoSuccess w.qrChan.items, e.Event ≠ "code" ∧ e.Event ≠ "success" ∧
          line = "Login event: " ++ e.Event) ∧
    (hasSuccess w.qrChan.items = false → w.qrChan.closed = true →
      (run (login w)).isReturned = true ∧
      ∃ pre, (run (login w)).state.trace = pre ++ [.sleep (30 * Second), .disconnect]) ∧
    (hasSuccess w.qrChan.items = false → w.qrChan.closed = false →
      run (login w) =
        .blocked { trace := setupCalls ++ [.getQRChannel, .connect none] ++
                              loopCalls w.qrChan.items,
                   connects := 1 }) ∧
    (run (login w)).isPanicked = false := by
  obtain ⟨tail, ht, htr⟩ := login_pairing_trace w hl hid hc
  have hrun := login_pairing_run w hl hid hc
  refine ⟨hrun, ?_, ?_, ?_, ?_, ?_, ?_, ?_⟩
  · rw [htr]
    rcases ht with rfl | rfl <;>
    simp [received_append, received_setupCalls, received_loopCalls, received]
  · intro e he h1 h2
    rw [htr]
    have := loopCalls_other_line w.qrChan.items e he h1 h2
    simp [this]
  · rw [htr]
    constructor
    · intro hm
      cases hs : hasSuccess w.qrChan.items with
      | true => rfl
      | false =>
        exfalso
        have hn := loopCalls_no_success w.qrChan.items hs
        rcases ht with rfl | rfl <;> simp [setupCalls, hn] at hm
    · intro hs
      obtain ⟨pre, e, _⟩ := loopCalls_success w.qrChan.items hs
      rw [e]
      simp
  · intro line hm
    rw [htr] at hm
    have hl2 : Call.println line ∈ loopCalls w.qrChan.items := by
      rcases ht with rfl | rfl <;> simpa [setupCalls] using hm
    exact loopCalls_lines w.qrChan.items line hl2
  · intro hs hcl
    rw [hrun]
    simp only [hs, hcl, Bool.false_or, if_true]
    exact ⟨rfl, ⟨_, rfl⟩⟩
  · intro hs hcl
    rw [hrun]
    simp [hs, hcl]
  · rw [hrun]
    split <;> rfl

/-- Witness of C7 amended: a channel that delivers a timeout and is closed gives
the run timeout report, sleep, `Disconnect`; a channel that delivers timeout,
code2, success goes on to render the code and to report the success. -/
theorem login_other_event_is_reported_and_loop_goes_on_witness :
    storeLoads worldTimeoutCloses ∧ worldTimeoutCloses.storeID = none ∧
    worldTimeoutCloses.connectErr 0 = none ∧
    run (login worldTimeoutCloses) =
      .returned () { trace := setupCalls ++ [.getQRChannel, .connect none,
                                .recv ⟨"timeout", ""⟩, .println "Login event: timeout",
                                .sleep (30 * Second), .disconnect],
                     connects := 1 } ∧
    run (login worldTimeout) =
      .returned () { trace := setupCalls ++ [.getQRChannel, .connect none,
                                .recv ⟨"timeout", ""⟩, .println "Login event: timeout",
                                .recv ⟨"code", "code2"⟩, .println "Scan QR code di bawah:",
                                .render "code2",
                                .recv ⟨"success", ""⟩, .println "Login successful",
                                .sleep (30 * Second), .disconnect],
                     connects := 1 } ∧
    received (run (login worldTimeout)).state.trace = uptoSuccess worldTimeout.qrChan.items ∧
    Call.println ("Login event: " ++ "timeout") ∈ (run (login worldTimeout)).state.trace :=
  ⟨⟨rfl, rfl, rfl⟩, rfl, rfl,
    (login_other_event_is_reported_and_loop_goes_on worldTimeoutCloses ⟨rfl, rfl, rfl⟩ rfl rfl).1,
    (login_other_event_is_reported_and_loop_goes_on worldTimeout ⟨rfl, rfl, rfl⟩ rfl rfl).1,
    (login_other_event_is_reported_and_loop_goes_on worldTimeout ⟨rfl, rfl, rfl⟩ rfl rfl).2.1,
    (login_other_event_is_reported_and_loop_goes_on worldTimeout ⟨rfl, rfl, rfl⟩ rfl rfl).2.2.1
      ⟨"timeout", ""⟩ (by decide) (by decide) (by decide)⟩

/-- C8: when the `Connect` call of `logout` succeeds, the run is exactly: setup,
`Connect`, one revoke call, one printed line, one `Disconnect`, and the return,
whether the revoke succeeds or fails; the line printed is "Logged out
successfully" in the first case and "Error logging out: " with the error in the
second. -/
theorem logout_revokes_once_and_disconnects (w : World) (hl : storeLoads w)
    (hc : w.connectErr 0 = none) :
    (w.logoutErr = none →
      run (logout w) =
        .returned () { trace := setupCalls ++ [.connect none, .logout none,
                                  .println "Logged out successfully", .disconnect],
                       connects := 1 }) ∧
    (∀ e, w.logoutErr = some e →
      run (logout w) =
        .returned () { trace := setupCalls ++ [.connect none, .logout (some e),
                                  .println ("Error logging out: " ++ e), .disconnect],
                       connects := 1 }) ∧
    (run (logout w)).isReturned = true ∧
    (run (logout w)).state.trace.countP isRevoke = 1 ∧
    (run (logout w)).state.trace.count Call.disconnect = 1 ∧
    (run (logout w)).state.trace.countP isConnect = 1 ∧
    (∃ pre mid, (run (logout w)).state.trace =
      pre ++ [Call.logout w.logoutErr] ++ mid ++ [Call.disconnect]) := by
  have hrun := logout_run w hl
  rw [hc] at hrun
  simp only at hrun
  rw [hrun]
  refine ⟨?_, ?_, rfl, ?_, ?_, ?_,
    ⟨setupCalls ++ [.connect none], [.println (logoutLine w.logoutErr)], ?_⟩⟩
  · intro he; rw [he]; rfl
  · intro e he; rw [he]; rfl
  · simp [Result.state, setupCalls, List.countP_cons, isRevoke]
  · simp [Result.state, setupCalls, List.count_cons]
  · simp [Result.state, setupCalls, List.countP_cons, isConnect]
  · simp [Result.state]

/-- Witness of C8: the sample world whose revoke request succeeds and the one
whose revoke request is refused. -/
theorem logout_revokes_once_and_disconnects_witness :
    storeLoads worldPaired ∧ worldPaired.connectErr 0 = none ∧ worldPaired.logoutErr = none ∧
    run (logout worldPaired) =
      .returned () { trace := setupCalls ++ [.connect none, .logout none,
                                .println "Logged out successfully", .disconnect],
                     connects := 1 } ∧
    storeLoads worldRevokeFails ∧ worldRevokeFails.connectErr 0 = none ∧
    worldRevokeFails.logoutErr = some "server refused" ∧
    run (logout worldRevokeFails) =
      .returned () { trace := setupCalls ++ [.connect none, .logout (some "server refused"),
                                .println ("Error logging out: " ++ "server refused"), .disconnect],
                     connects := 1 } ∧
    (run (logout worldRevokeFails)).state.trace.countP isRevoke = 1 ∧
    (run (logout worldRevokeFails)).state.trace.count Call.disconnect = 1 :=
  ⟨⟨rfl, rfl, rfl⟩, rfl, rfl,
    (logout_revokes_once_and_disconnects worldPaired ⟨rfl, rfl, rfl⟩ rfl).1 rfl,
    ⟨rfl, rfl, rfl⟩, rfl, rfl,
    (logout_revokes_once_and_disconnects worldRevokeFails ⟨rfl, rfl, rfl⟩ rfl).2.1
      "server refused" rfl,
    (logout_revokes_once_and_disconnects worldRevokeFails ⟨rfl, rfl, rfl⟩ rfl).2.2.2.1,
    (logout_revokes_once_and_disconnects worldRevokeFails ⟨rfl, rfl, rfl⟩ rfl).2.2.2.2.1⟩

/-- Counterexample to C3 as stated: the sample parser rejects "not-a-number", yet
the `SendMessage` call is made all the same, with the address value the parser
returned, and the outcome printed is "Message sent!". -/
theorem sendMessage_rejected_recipient_is_sent :
    (worldPaired.parseJID ("not-a-number" ++ "@s.whatsapp.net")).2 =
      some "failed to parse user" ∧
    worldPaired.storeID ≠ none ∧ worldPaired.connectErr 0 = none ∧
    run (sendMessage worldPaired "not-a-number" "hi") =
      .returned () { trace := setupCalls ++ [.connect none,
                                .parseJID "not-a-number@s.whatsapp.net",
                                .sendMessage ⟨"", ""⟩ "hi", .println "Message sent!", .disconnect],
                     connects := 1 } ∧
    (run (sendMessage worldPaired "not-a-number" "hi")).state.trace.countP isSend = 1 :=
  ⟨by decide, by decide, rfl, by decide, by decide⟩

/-- C3, amended: for every recipient text and body, also when the address parser
rejects the text, `sendMessage` on a store that holds a device identity and whose
`Connect` succeeds makes exactly one `SendMessage` call, with the address value
the parser returned (the parse error is dropped), prints "Message sent!" when the
transport accepts and "Error sending message: " with the error when it fails, and
disconnects; the parse error changes nothing in the outcome. -/
theorem sendMessage_sends_whatever_parser_returns (w : World) (phone msg : String)
    (hl : storeLoads w) (hid : w.storeID ≠ none) (hc : w.connectErr 0 = none) :
    (run (sendMessage w phone msg)).state.trace.countP isSend = 1 ∧
    Call.sendMessage (w.parseJID (phone ++ "@s.whatsapp.net")).1 msg ∈
      (run (sendMessage w phone msg)).state.trace ∧
    (w.sendErr (w.parseJID (phone ++ "@s.whatsapp.net")).1 msg = none →
      run (sendMessage w phone msg) =
        .returned () { trace := setupCalls ++ [.connect none,
                                  .parseJID (phone ++ "@s.whatsapp.net"),
                                  .sendMessage (w.parseJID (phone ++ "@s.whatsapp.net")).1 msg,
                                  .println "Message sent!", .disconnect],
                       connects := 1 }) ∧
    (∀ e, w.sendErr (w.parseJID (phone ++ "@s.whatsapp.net")).1 msg = some e →
      run (sendMessage w phone msg) =
        .returned () { trace := setupCalls ++ [.connect none,
                                  .parseJID (phone ++ "@s.whatsapp.net"),
                                  .sendMessage (w.parseJID (phone ++ "@s.whatsapp.net")).1 msg,
                                  .println ("Error sending message: " ++ e), .disconnect],
                       connects := 1 }) := by
  have hrun := sendMessage_run w phone msg hl
  cases hs : w.storeID with
  | none => exact absurd hs hid
  | some j =>
    rw [hs, hc] at hrun
    simp only at hrun
    rw [hrun]
    refine ⟨?_, ?_, ?_, ?_⟩
    · simp [Result.state, setupCalls, List.countP_cons, isSend]
    · simp [Result.state]
    · intro he; rw [he]; rfl
    · intro e he; rw [he]; rfl

/-- Witness of C3 amended: the rejecting parser. -/
theorem sendMessage_sends_whatever_parser_returns_witness :
    storeLoads worldRejectingParser ∧ worldRejectingParser.storeID ≠ none ∧
    worldRejectingParser.connectErr 0 = none ∧
    (run (sendMessage worldRejectingParser "not-a-number" "hi")).state.trace.countP isSend = 1 :=
  ⟨⟨rfl, rfl, rfl⟩, by decide, rfl,
    (sendMessage_sends_whatever_parser_returns worldRejectingParser "not-a-number" "hi"
      ⟨rfl, rfl, rfl⟩ (by decide) rfl).1⟩

/-- C4, the code at the failing input: `logout` on a store without device identity
does call `Connect` and then `Logout` (nothing in it looks at the identity),
whereas `sendMessage` in the same world stops at "Not logged in" before any
`Connect`. -/
theorem logout_unpaired_connects_and_revokes :
    worldUnpaired.storeID = none ∧
    run (logout worldUnpaired) =
      .returned () { trace := setupCalls ++ [.connect none, .logout (some "not logged in"),
                                .println "Error logging out: not logged in", .disconnect],
                     connects := 1 } ∧
    (run (logout worldUnpaired)).state.trace.countP isConnect = 1 ∧
    (run (logout worldUnpaired)).state.trace.countP isRevoke = 1 ∧
    run (sendMessage worldUnpaired "628222" "hi") =
      .returned () { trace := setupCalls ++ [.println "Not logged in"], connects := 0 } :=
  ⟨rfl, by decide, by decide, by decide, by decide⟩

/-- Counterexample to C9 as stated: when `Connect` fails in `sendMessage`, in
`logout` and in the pairing path of `login`, the command panics at once; the
`Connect` call of the trace has no `Disconnect` after it. -/
theorem connect_failure_panics_without_disconnect :
    run (sendMessage worldOffline "628222" "hi") =
      .panicked "dial failed" { trace := setupCalls ++ [.connect (some "dial failed")],
                                connects := 1 } ∧
    run (logout worldOffline) =
      .panicked "dial failed" { trace := setupCalls ++ [.connect (some "dial failed")],
                                connects := 1 } ∧
    run (login worldEmptyOffline) =
      .panicked "dial failed" { trace := setupCalls ++ [.getQRChannel, .connect (some "dial failed")],
                                connects := 1 } ∧
    ¬ connectsFollowed (run (sendMessage worldOffline "628222" "hi")).state.trace ∧
    ¬ connectsFollowed (run (logout worldOffline)).state.trace ∧
    ¬ connectsFollowed (run (login worldEmptyOffline)).state.trace := by
  refine ⟨rfl, rfl, rfl, ?_, ?_, ?_⟩
  · intro h
    have := h setupCalls (.connect (some "dial failed")) [] rfl rfl
    simp at this
  · intro h
    have := h setupCalls (.connect (some "dial failed")) [] rfl rfl
    simp at this
  · intro h
    have := h (setupCalls ++ [Call.getQRChannel]) (.connect (some "dial failed")) []
      (by decide) rfl
    simp at this

/-- C9, amended: in `login`, `sendMessage` and `logout`, on every path that
returns normally each `Connect` call has a `Disconnect` after it.  When the
`Connect` call of `sendMessage`, of `logout` or of the pairing path of `login`
returns an error, the command panics with that error at once and makes no
`Disconnect` call. -/
theorem connect_followed_by_disconnect_on_return (w : World) (phone msg : String) :
    (∀ s, (run (login w) = .returned () s ∨ run (sendMessage w phone msg) = .returned () s ∨
        run (logout w) = .returned () s) → connectsFollowed s.trace) ∧
    (storeLoads w → ∀ e,
      (w.storeID ≠ none → w.connectErr 0 = some e →
        run (sendMessage w phone msg) =
          .panicked e { trace := setupCalls ++ [.connect (some e)], connects := 1 }) ∧
      (w.connectErr 0 = some e →
        run (logout w) =
          .panicked e { trace := setupCalls ++ [.connect (some e)], connects := 1 }) ∧
      (w.storeID = none → w.connectErr 0 = some e →
        run (login w) =
          .panicked e { trace := setupCalls ++ [.getQRChannel, .connect (some e)],
                        connects := 1 }) ∧
      (w.storeID ≠ none → ∀ e0, w.connectErr 0 = some e0 → w.connectErr 1 = some e →
        run (login w) =
          .panicked e { trace := setupCalls ++ [.connect (some e0),
                                   .println "Session expired, need to login again",
                                   .getQRChannel, .connect (some e)],
                        connects := 2 })) := by
  constructor
  · intro s h
    have hs : releasedShape s.trace := by
      rcases h with h | h | h
      · exact login_returned w s h
      · exact sendMessage_returned w phone msg s h
      · exact logout_returned w s h
    exact (released_closed hs).2.1
  · intro hl e
    refine ⟨?_, ?_, ?_, ?_⟩
    · intro hid hc
      rw [sendMessage_run w phone msg hl]
      cases hs : w.storeID with
      | none => exact absurd hs hid
      | some j => simp [hc]
    · intro hc
      rw [logout_run w hl]
      simp [hc]
    · intro hid hc
      rw [login_run w hl, hid]
      simp [pairingRun, hc]
    · intro hid e0 hc0 hc1
      rw [login_run w hl]
      cases hs : w.storeID with
      | none => exact absurd hs hid
      | some j => simp [pairingRun, hc0, hc1]

/-- Witness of C9 amended: a returning run of `sendMessage`, and the panic of
`logout` when the transport cannot be reached. -/
theorem connect_followed_by_disconnect_on_return_witness :
    (∃ s, run (sendMessage worldPaired "628222" "hi") = .returned () s ∧
      connectsFollowed s.trace) ∧
    storeLoads worldOffline ∧ worldOffline.connectErr 0 = some "dial failed" ∧
    run (logout worldOffline) =
      .panicked "dial failed" { trace := setupCalls ++ [.connect (some "dial failed")],
                                connects := 1 } :=
  ⟨⟨_, rfl, (connect_followed_by_disconnect_on_return worldPaired "628222" "hi").1 _
      (Or.inr (Or.inl rfl))⟩,
   ⟨rfl, rfl, rfl⟩, rfl,
   ((connect_followed_by_disconnect_on_return worldOffline "628222" "hi").2 ⟨rfl, rfl, rfl⟩
      "dial failed").2.1 rfl⟩

/-- C10: `main` performs exactly one action, chosen by the flags: `login` when
`login` is set; else, when `send` is set, `sendMessage phone message` if both
texts are non-empty and only the line "Phone and message are required for send"
(no store opened, no call made) if one is empty; else `logout` when `logout` is
set; else only the usage line. -/
theorem main_dispatches_one_action (w : World) (f : Flags) :
    (f.login = true → main w f = login w) ∧
    (f.login = false → f.send = true → f.phone ≠ "" → f.message ≠ "" →
      main w f = sendMessage w f.phone f.message) ∧
    (f.login = false → f.send = true → (f.phone = "" ∨ f.message = "") →
      run (main w f) =
        .returned () { trace := [.println "Phone and message are required for send"],
                       connects := 0 }) ∧
    (f.login = false → f.send = false → f.logout = true → main w f = logout w) ∧
    (f.login = false → f.send = false → f.logout = false →
      run (main w f) =
        .returned ()
          { trace := [.println
              "Usage: go run whatsapp.go -login | -send -phone=<number> -message=<msg> | -logout"],
            connects := 0 }) := by
  refine ⟨?_, ?_, ?_, ?_, ?_⟩
  · intro h1
    simp [main, h1]
  · intro h1 h2 h3 h4
    funext s
    simp [main, h1, h2, h3, h4, Prog.bind]
  · intro h1 h2 h3
    simp [main, h1, h2, h3, run, State.init, Prog.bind]
  · intro h1 h2 h3
    simp [main, h1, h2, h3]
  · intro h1 h2 h3
    simp [main, h1, h2, h3, run, State.init]

/-- Witness of C10: `--send` with an empty phone only prints the requirement, and
`--send` with both texts runs `sendMessage`. -/
theorem main_dispatches_one_action_witness :
    run (main worldPaired ⟨false, true, true, "", "hi"⟩) =
      .returned () { trace := [.println "Phone and message are required for send"],
                     connects := 0 } ∧
    main worldPaired ⟨false, true, true, "628222", "hi"⟩ = sendMessage worldPaired "628222" "hi" ∧
    main worldPaired ⟨true, true, true, "628222", "hi"⟩ = login worldPaired ∧
    main worldPaired ⟨false, false, true, "628222", "hi"⟩ = logout worldPaired :=
  ⟨(main_dispatches_one_action worldPaired ⟨false, true, true, "", "hi"⟩).2.2.1 rfl rfl
      (Or.inl rfl),
   (main_dispatches_one_action worldPaired ⟨false, true, true, "628222", "hi"⟩).2.1 rfl rfl
      (by decide) (by decide),
   (main_dispatches_one_action worldPaired ⟨true, true, true, "628222", "hi"⟩).1 rfl,
   (main_dispatches_one_action worldPaired ⟨false, false, true, "628222", "hi"⟩).2.2.2.1
      rfl rfl rfl⟩

end Whatsapp
